import Mathlib

/-!
Verification model of the CoreTables plugin (src/core-tables.js).

The JavaScript source is shallowly embedded as executable Lean definitions:

* the per-container table state (JSON round-tripped through the container
  data attribute in the source) is the structure TState;
* the asynchronous fetch machinery is a small-step event machine: the
  pending list of a Machine holds the in-flight requests together with the
  state snapshot captured by the closure created inside fetchData, and user
  interactions as well as promise resolutions and rejections are events;
* the draw field (Date.now() in the source) is modelled as a strictly
  increasing counter, which is what it is used for;
* JavaScript cell values are the inductive type JsVal, with JavaScript
  truthiness, so that the fallback expression rowObject[column.data] || ""
  of renderTableBody is translated exactly;
* a response whose data field is not an array makes renderTableBody throw
  (property access and .map on a non-array), which is modelled by
  renderTableBody returning Except: the thrown error is handled by the
  catch branch of fetchData, exactly as the promise chain of the source
  does.
-/

namespace CoreTables

/-- JavaScript primitive values, as far as cell rendering needs them. -/
inductive JsVal where
  | vNull
  | vUndefined
  | vTrue
  | vFalse
  | vNum (n : Int)
  | vStr (s : String)
  deriving DecidableEq, Repr

/-- JavaScript truthiness for JsVal (0, false, null, undefined and the
empty string are falsy). -/
def truthy : JsVal → Bool
  | .vNull => false
  | .vUndefined => false
  | .vTrue => true
  | .vFalse => false
  | .vNum n => n != 0
  | .vStr s => s != ""

/-- The JavaScript expression a || b specialised to JsVal. -/
def jsOr (a b : JsVal) : JsVal :=
  if truthy a then a else b

/-- A response row object: an associative mapping from key to value. -/
abbrev Row := List (String × JsVal)

/-- Property lookup on a row object; a missing key reads as undefined. -/
def rowLookup (r : Row) (key : String) : JsVal :=
  match r.find? (fun p => p.1 == key) with
  | some p => p.2
  | none => .vUndefined

/-- The cell value computed in renderTableBody:
rowObject[column.data] || "". -/
def cellData (r : Row) (key : String) : JsVal :=
  jsOr (rowLookup r key) (.vStr "")

/-- A column definition. In the source a column is an object whose
orderable property counts as sortable unless it is literally false
(the test is col.orderable !== false), which the Bool field captures. -/
structure Column where
  data : String
  title : String
  orderable : Bool
  deriving DecidableEq, Repr

/-- Sort direction, the strings "asc" and "desc" of the source. -/
inductive Dir where
  | asc
  | desc
  deriving DecidableEq, Repr

/-- The conditional state.sort.direction === "asc" ? "desc" : "asc". -/
def flipDir : Dir → Dir
  | .asc => .desc
  | .desc => .asc

/-- The sort part of the table state. -/
structure SortSpec where
  columnIndex : Int
  direction : Dir
  deriving DecidableEq, Repr

/-- The per-container table state stored (JSON-stringified) on the
container by the source. -/
structure TState where
  currentPage : Int
  pageLength : Int
  searchTerm : String
  sort : SortSpec
  deriving DecidableEq, Repr

/-- The data field of a server response: either a genuine array of row
objects or some other (malformed) JavaScript value. -/
inductive DataField where
  | arr (rows : List Row)
  | other (v : JsVal)
  deriving DecidableEq, Repr

/-- A server response. The source reads only response.data and
response.recordsFiltered (draw and recordsTotal are never consulted). -/
structure Response where
  data : DataField
  recordsFiltered : Int
  deriving DecidableEq, Repr

/-- The request parameters assembled by fetchData. The draw field is the
token (Date.now() in the source, modelled as a counter); start is
state.currentPage * state.pageLength. -/
structure RequestData where
  draw : Nat
  start : Int
  length : Int
  searchValue : String
  orderColumn : Int
  orderDir : Dir
  columnKeys : List String
  deriving DecidableEq, Repr

/-- What the table body region currently shows. -/
inductive Body where
  | blank
  | loading
  | errorRow
  | noRecords
  | rows (cells : List (List JsVal))
  deriving DecidableEq, Repr

/-- The cells of one rendered row: one cell per configured column. -/
def renderCells (cols : List Column) (r : Row) : List JsVal :=
  cols.map fun c => cellData r c.data

/-- Translation of renderTableBody. On an array it renders the
no-matching-records placeholder for length zero and otherwise one row of
cells per row object. On a non-array value the source throws: .length on
null or undefined throws immediately; on a number or boolean .length is
undefined, the length === 0 test fails and data.map throws; on a string,
.length is the string length, so the empty string renders the placeholder
and any other string fails at data.map. A thrown error becomes a rejected
promise, handled by the catch branch of fetchData; this is the Except
error value. -/
instance : DecidableEq (Except Unit Body) := fun a b =>
  match a, b with
  | .ok x, .ok y =>
    if h : x = y then .isTrue (by rw [h]) else .isFalse (by intro hc; cases hc; exact h rfl)
  | .error x, .error y =>
    if h : x = y then .isTrue (by rw [h]) else .isFalse (by intro hc; cases hc; exact h rfl)
  | .ok _, .error _ => .isFalse (by intro hc; cases hc)
  | .error _, .ok _ => .isFalse (by intro hc; cases hc)

def renderTableBody (cols : List Column) (d : DataField) : Except Unit Body :=
  match d with
  | .arr rows =>
    if rows.length == 0 then .ok .noRecords
    else .ok (.rows (rows.map (renderCells cols)))
  | .other v =>
    match v with
    | .vStr s => if s.length == 0 then .ok .noRecords else .error ()
    | _ => .error ()

/-- Whether the header cell for index i carries the sortable class:
the column exists and its orderable property is not false. (The class is
only assigned at all when options.ordering holds; the callers guard on
that.) -/
def thSortable (cols : List Column) (i : Nat) : Bool :=
  match cols.get? i with
  | some c => c.orderable
  | none => false

/-- thSortable lifted to the Int-valued columnIndex stored in the state. -/
def intSortable (cols : List Column) (i : Int) : Bool :=
  decide (0 ≤ i) && thSortable cols i.toNat

/-- The configuration options after merging with the defaults. Only the
behaviourally relevant fields are modelled; URLs and class names are
identifiers with no control-flow role. -/
structure Opts where
  hasColumnsUrl : Bool
  columns : List Column
  paging : Bool
  searching : Bool
  ordering : Bool
  pageLength : Int
  deriving Repr

/-- The whole observable condition of one grid container. -/
structure Machine where
  hasStateData : Bool
  wired : Bool
  fatal : Bool
  columns : List Column
  state : TState
  nextDraw : Nat
  pending : List (Nat × TState)
  requestsSent : List RequestData
  body : Body
  infoText : Option String
  buttons : Option (Bool × Bool)
  sortIndicator : Option (Int × Dir)
  deriving DecidableEq, Repr

/-- The request object literal built inside fetchData. -/
def buildRequest (cols : List Column) (st : TState) (draw : Nat) : RequestData :=
  { draw := draw
    start := st.currentPage * st.pageLength
    length := st.pageLength
    searchValue := st.searchTerm
    orderColumn := st.sort.columnIndex
    orderDir := st.sort.direction
    columnKeys := cols.map fun c => c.data }

/-- Translation of fetchData up to the transport call: read the current
state, show the loading placeholder, build the request and send it. The
closures of the then and catch branches capture the state snapshot; that
pair (token, snapshot) is what the pending list records. The response
handlers themselves run later, as resolve and reject events. -/
def fetchData (m : Machine) : Machine :=
  { m with
    body := .loading
    requestsSent := m.requestsSent ++ [buildRequest m.columns m.state m.nextDraw]
    pending := m.pending ++ [(m.nextDraw, m.state)]
    nextDraw := m.nextDraw + 1 }

/-- Translation of renderPagingControls, applied to the state snapshot
captured by the fetch closure and to the response. -/
def renderPagingControls (m : Machine) (snap : TState) (resp : Response) : Machine :=
  let rf := resp.recordsFiltered
  let startRecord : Int := if rf == 0 then 0 else snap.currentPage * snap.pageLength + 1
  let endRecord : Int := min (startRecord + snap.pageLength - 1) rf
  { m with
    infoText := some ("Showing " ++ toString startRecord ++ " to " ++
      toString endRecord ++ " of " ++ toString rf ++ " entries")
    buttons := some (decide (snap.currentPage = 0), decide (rf ≤ endRecord)) }

/-- Translation of renderHeaderSortUI: every sortable header is cleared
and the one whose stored columnIndex equals the snapshot sort column is
marked with the direction class. A sort column that is not among the
sortable headers leaves no indicator. -/
def renderHeaderSortUI (m : Machine) (snap : TState) : Machine :=
  { m with
    sortIndicator :=
      if intSortable m.columns snap.sort.columnIndex then
        some (snap.sort.columnIndex, snap.sort.direction)
      else none }

/-- The then branch of the fetch promise chain, with the catch fallback:
render the body from response.data; if that throws, the catch branch
replaces the body with the inline error row (and nothing else runs).
Otherwise the paging controls and the header sort indicators are redrawn
from the captured snapshot. There is no comparison of the response draw
token against the latest issued one anywhere in this handler. -/
def handleResponse (opts : Opts) (m : Machine) (snap : TState) (resp : Response) : Machine :=
  match renderTableBody m.columns resp.data with
  | .error _ => { m with body := .errorRow }
  | .ok b =>
    let m1 := { m with body := b }
    let m2 := if opts.paging then renderPagingControls m1 snap resp else m1
    if opts.ordering then renderHeaderSortUI m2 snap else m2

/-- The index computation options.columns.findIndex(c => c.orderable !==
false): the index of the first match, or -1. -/
def jsFindIndex (p : Column → Bool) (cols : List Column) : Int :=
  match cols.findIdx? p with
  | some i => (i : Int)
  | none => -1

/-- The initial sort column index: findIndex over the columns passed in
the options, with the fallback to 0 when findIndex returned -1. -/
def initialSortIdx (cols : List Column) : Int :=
  let i := jsFindIndex (fun c => c.orderable) cols
  if i == -1 then 0 else i

/-- Translation of initializeTable: with a columnsUrl configured the
column discovery call decides everything (success stores the fetched
columns, builds the DOM, wires the listeners and starts the first fetch;
failure writes the fatal error markup into the container and stops);
without one, non-empty static columns take the same success path and an
empty column list is the fatal no-columns-defined error. setupTableDOM
and wireUpEventListeners are summarised by the wired flag: the event
handlers exist exactly when they ran. -/
def initializeTable (opts : Opts) (discovery : Except Unit (List Column))
    (m : Machine) : Machine :=
  if opts.hasColumnsUrl then
    match discovery with
    | .ok cols => fetchData { m with columns := cols, wired := true }
    | .error _ => { m with fatal := true }
  else if opts.columns.length > 0 then
    fetchData { m with columns := opts.columns, wired := true }
  else { m with fatal := true }

/-- The body of the each loop of J.fn.coreTable: a container that already
carries state data is left alone; otherwise the initial state is created
from options.columns as passed (note: before any column discovery), the
state data is attached, and initializeTable runs. -/
def coreTableEach (opts : Opts) (discovery : Except Unit (List Column))
    (m : Machine) : Machine :=
  if m.hasStateData then m
  else
    let st : TState :=
      { currentPage := 0
        pageLength := opts.pageLength
        searchTerm := ""
        sort := { columnIndex := initialSortIdx opts.columns, direction := .asc } }
    initializeTable opts discovery { m with state := st, hasStateData := true }

/-- A container before the plugin has touched it. -/
def freshMachine : Machine :=
  { hasStateData := false
    wired := false
    fatal := false
    columns := []
    state := { currentPage := 0, pageLength := 0, searchTerm := ""
               sort := { columnIndex := 0, direction := .asc } }
    nextDraw := 0
    pending := []
    requestsSent := []
    body := .blank
    infoText := none
    buttons := none
    sortIndicator := none }

/-- Initialising the plugin on a fresh container. -/
def initMachine (opts : Opts) (discovery : Except Unit (List Column)) : Machine :=
  coreTableEach opts discovery freshMachine

/-- The events the machine reacts to: the three wired user interactions,
resolution or rejection of an in-flight request, and a repeated coreTable
call on the same container. -/
inductive Event where
  | clickSort (i : Nat)
  | searchSettled (term : String)
  | clickPrev
  | clickNext
  | resolve (tok : Nat) (resp : Response)
  | reject (tok : Nat)
  | reinit (discovery : Except Unit (List Column))

/-- One step of the machine. Each branch translates the corresponding
handler of wireUpEventListeners (a handler exists only if the listeners
were wired and the matching option is on; a sort click reaches the
handler only through a th that carries the sortable class; a paging
click returns early when the clicked button carries the disabled class,
and the buttons only exist once renderPagingControls has run). resolve
and reject run the stored fetch closures for an in-flight token. -/
def step (opts : Opts) (m : Machine) (e : Event) : Machine :=
  match e with
  | .clickSort i =>
    if m.wired && opts.ordering && thSortable m.columns i then
      let st := m.state
      let st' :=
        if st.sort.columnIndex == (i : Int) then
          { st with sort := { st.sort with direction := flipDir st.sort.direction } }
        else
          { st with sort := { columnIndex := (i : Int), direction := .asc } }
      fetchData { m with state := st' }
    else m
  | .searchSettled term =>
    if m.wired && opts.searching then
      fetchData { m with state := { m.state with searchTerm := term, currentPage := 0 } }
    else m
  | .clickPrev =>
    match m.buttons with
    | some (pd, _) =>
      if m.wired && opts.paging && !pd then
        fetchData { m with state := { m.state with currentPage := m.state.currentPage - 1 } }
      else m
    | none => m
  | .clickNext =>
    match m.buttons with
    | some (_, nd) =>
      if m.wired && opts.paging && !nd then
        fetchData { m with state := { m.state with currentPage := m.state.currentPage + 1 } }
      else m
    | none => m
  | .resolve tok resp =>
    match m.pending.find? (fun p => p.1 == tok) with
    | some pr =>
      handleResponse opts { m with pending := m.pending.filter (fun p => p.1 != tok) }
        pr.2 resp
    | none => m
  | .reject tok =>
    match m.pending.find? (fun p => p.1 == tok) with
    | some _ =>
      { m with pending := m.pending.filter (fun p => p.1 != tok), body := .errorRow }
    | none => m
  | .reinit discovery => coreTableEach opts discovery m

/-- Run a sequence of events. -/
def runEvents (opts : Opts) (m : Machine) (evs : List Event) : Machine :=
  evs.foldl (step opts) m

/-! The debounce scheduler. The source wraps the search handler in
debounce(fn, 400) and binds it to keyup; each call clears the previously
armed single-shot timer and arms a new one. A keyup is modelled as a pair
(time, input value); the scheduler state is the armed timer: its due time
together with the value the fired callback would read from the input
(between a keyup and the next one the input value does not change, so the
value read at fire time is the value of the last keyup). -/

/-- One keyup processed by the debounce wrapper at time t with input
value v: an armed timer whose due time has been reached has already
fired (emitting its value); the handler then clears any still armed
timer and arms a new one due at t + delay. -/
def debStep (delay : Nat) (s : Option (Nat × String)) (t : Nat) (v : String) :
    Option (Nat × String) × List String :=
  match s with
  | some fv =>
    if fv.1 ≤ t then (some (t + delay, v), [fv.2])
    else (some (t + delay, v), [])
  | none => (some (t + delay, v), [])

/-- Process a time-ordered list of keyups, collecting the values with
which the debounced callback fired. -/
def debRun (delay : Nat) (s : Option (Nat × String)) :
    List (Nat × String) → Option (Nat × String) × List String
  | [] => (s, [])
  | e :: rest =>
    let p := debStep delay s e.1 e.2
    let q := debRun delay p.1 rest
    (q.1, p.2 ++ q.2)

/-- After the last keyup, time passes: a still armed timer fires. -/
def debFlush (p : Option (Nat × String) × List String) : List String :=
  p.2 ++ (match p.1 with
    | some fv => [fv.2]
    | none => [])

/-- All values with which the debounced search callback fires, for a
keyup sequence followed by quiescence, with the 400 ms delay the source
wires. -/
def debouncedKeyupFires (events : List (Nat × String)) : List String :=
  debFlush (debRun 400 none events)

/-- Every firing of the debounced callback performs the search state
transition and its fetch; this runs them all in order. -/
def runDebouncedSearch (opts : Opts) (m : Machine)
    (events : List (Nat × String)) : Machine :=
  (debouncedKeyupFires events).foldl (fun mm v => step opts mm (.searchSettled v)) m

/-- The keyup times are non-decreasing and each gap is strictly below the
delay, starting from a previous time prev. -/
def gapsFrom (delay : Nat) : Nat → List (Nat × String) → Bool
  | _, [] => true
  | prev, e :: rest =>
    (decide (prev ≤ e.1) && decide (e.1 - prev < delay)) && gapsFrom delay e.1 rest

/-- The last element of a list with an explicit default head. -/
def lastPair (p : Nat × String) : List (Nat × String) → Nat × String
  | [] => p
  | q :: rest => lastPair q rest

/-! Concrete fixtures used by the trace evaluations. -/

/-- A configuration with two static sortable columns and every feature
switched on (the defaults of the plugin). -/
def optsAll : Opts :=
  { hasColumnsUrl := false
    columns := [{ data := "a", title := "A", orderable := true },
                { data := "b", title := "B", orderable := true }]
    paging := true
    searching := true
    ordering := true
    pageLength := 10 }

/-- The machine right after initialisation with the static columns of
optsAll (the discovery argument is not consulted because no columnsUrl is
configured). Initialisation itself issues the first fetch, token 0. -/
def mInit : Machine := initMachine optsAll (Except.error ())

/-- The response that resolves the newer request in the C1 trace. -/
def respNewer : Response :=
  { data := .arr [[("a", .vStr "newer-row")]], recordsFiltered := 1 }

/-- The response that resolves the older, superseded request in the C1
trace. -/
def respOlder : Response :=
  { data := .arr [[("a", .vStr "older-row")]], recordsFiltered := 1 }

/-- A well-formed response used where only its freshness matters. -/
def respFresh : Response :=
  { data := .arr [[("a", .vStr "fresh-row")]], recordsFiltered := 1 }

/-- A well-formed response announcing 25 filtered records. -/
def resp25 : Response :=
  { data := .arr [[("a", .vStr "r")]], recordsFiltered := 25 }

/-- A response whose data field is null instead of an array. -/
def respMalformed : Response :=
  { data := .other .vNull, recordsFiltered := 0 }

/-- C1 trace: the initial fetch is token 0; the sort click issues token 1;
token 1 resolves first, then the stale token 0 resolves. -/
def c1Trace : List Event :=
  [.clickSort 1, .resolve 1 respNewer, .resolve 0 respOlder]

/-- The machine at the end of the C1 trace. -/
def c1Final : Machine := runEvents optsAll mInit c1Trace

/-- The C2 trace without the final stale failure. -/
def c2Prefix : List Event := [.searchSettled "abc", .resolve 1 respFresh]

/-- The machine after the fresh response of the C2 trace has rendered. -/
def c2Mid : Machine := runEvents optsAll mInit c2Prefix

/-- The machine after the stale request (token 0) additionally fails. -/
def c2Final : Machine := runEvents optsAll c2Mid [.reject 0]

/-- C4 trace: render page 0 (25 records), click next, render page 1, then
click previous twice while the second previous click still sees the
buttons rendered for page 1. -/
def c4Trace : List Event :=
  [.resolve 0 resp25, .clickNext, .resolve 1 resp25, .clickPrev, .clickPrev]

/-- The machine at the end of the C4 trace. -/
def c4Final : Machine := runEvents optsAll mInit c4Trace

/-- The machine after the initial fetch resolves with a null data field. -/
def c3Final : Machine := runEvents optsAll mInit [.resolve 0 respMalformed]

/-- The column list served by the column-discovery endpoint in the C5
counterexample: the first column is not orderable, the second is. -/
def discCols : List Column :=
  [{ data := "a", title := "A", orderable := false },
   { data := "b", title := "B", orderable := true }]

/-- A configuration that fetches its columns from a discovery endpoint
(no static columns, as in the documented columnsUrl usage). -/
def optsDisc : Opts :=
  { hasColumnsUrl := true
    columns := []
    paging := true
    searching := true
    ordering := true
    pageLength := 10 }

/-- The index of the first sortable column in display order, or 0 when no
column is sortable: the quantity the specification words describe for the
initial sort column. Stated from the specification, to be compared with
what the source computes. -/
def specFirstSortableIndex (cols : List Column) : Int :=
  match cols.findIdx? (fun c => c.orderable) with
  | some i => (i : Int)
  | none => 0

/-- The findIndex-with-fallback computation of the source agrees with the
first-sortable-index of the specification when applied to the same column
list. -/
theorem initialSortIdx_eq (cols : List Column) :
    initialSortIdx cols = specFirstSortableIndex cols := by
  unfold initialSortIdx jsFindIndex specFirstSortableIndex
  cases h : cols.findIdx? (fun c => c.orderable) with
  | none => simp
  | some i =>
    simp only
    rw [if_neg]
    simp only [beq_iff_eq]
    omega

/-- Claim C1 (code bug): the source sends a draw token with every request
but never compares it on return, so the view does not enforce
last-request-wins. Trace: the initial fetch is token 0 (sort column 0);
a sort click issues token 1 (sort column 1); token 1 resolves and renders
first; then the stale token 0 resolves and silently overwrites the rows
and the sort indicator, leaving the view showing the superseded data even
though the latest issued token is 1. -/
theorem c1_stale_response_overwrites_view :
    c1Final.nextDraw = 2 ∧
    (c1Final.requestsSent.map fun r => r.draw) = [0, 1] ∧
    c1Final.state.sort = { columnIndex := 1, direction := .asc } ∧
    c1Final.body = .rows [[.vStr "older-row", .vStr ""]] ∧
    c1Final.sortIndicator = some (0, Dir.asc) := by
  decide

/-- Claim C2 (code bug): the catch branch of fetchData renders the inline
error row unconditionally, with no token comparison. Trace: the initial
fetch is token 0; a search issues token 1; token 1 resolves and renders
fresh rows; then the stale token 0 fails, and its failure overwrites the
fresh body with the error row even though token 0 is not the latest
issued. The table state itself is indeed left untouched by the failure. -/
theorem c2_stale_failure_overwrites_view :
    c2Mid.nextDraw = 2 ∧
    c2Mid.body = .rows [[.vStr "fresh-row", .vStr ""]] ∧
    c2Final.body = .errorRow ∧
    c2Final.state = c2Mid.state ∧
    c2Final.state.searchTerm = "abc" := by
  decide

/-- Claim C4 (code bug): the previous-click handler decrements
state.currentPage with no clamp; the only guard is the disabled class of
the rendered button, which is stale while a fetch is in flight. Trace:
page 0 renders 25 records (previous disabled, next enabled); next is
clicked (page 1); page 1 renders (both buttons enabled); previous is
clicked (page 0, fetch issued); previous is clicked again before the
response re-renders the buttons, driving the page to -1 and sending a
fetch request with start = -10. -/
theorem c4_page_goes_negative :
    c4Final.state.currentPage = -1 ∧
    (c4Final.requestsSent.map fun r => r.start) = [0, 10, 0, -10] := by
  decide

/-- Claim C3 counterexample: a response whose data field is null (not an
array) does not render the no-matching-records placeholder; the render
step throws and the catch branch renders the inline error row instead. -/
theorem c3_counterexample_not_no_records :
    renderTableBody mInit.columns respMalformed.data = .error () ∧
    c3Final.body = .errorRow ∧
    c3Final.body ≠ .noRecords := by
  decide

/-- Claim C3 (amended): when a resolved response carries a data field on
which renderTableBody throws, the catch branch renders the inline error
row; nothing propagates out of the promise chain, and the table state,
paging summary, buttons and sort indicators are all left unchanged, so
the grid remains usable. -/
theorem c3_malformed_renders_error_row (opts : Opts) (m : Machine) (tok : Nat)
    (resp : Response)
    (hpend : (m.pending.find? (fun p => p.1 == tok)).isSome = true)
    (hmal : renderTableBody m.columns resp.data = .error ()) :
    (step opts m (.resolve tok resp)).body = .errorRow ∧
    (step opts m (.resolve tok resp)).state = m.state ∧
    (step opts m (.resolve tok resp)).infoText = m.infoText ∧
    (step opts m (.resolve tok resp)).buttons = m.buttons ∧
    (step opts m (.resolve tok resp)).sortIndicator = m.sortIndicator ∧
    (step opts m (.resolve tok resp)).requestsSent = m.requestsSent := by
  unfold step
  cases hf : m.pending.find? (fun p => p.1 == tok) with
  | none => rw [hf] at hpend; simp at hpend
  | some pr => simp [hf, handleResponse, hmal]

/-- Claim C3 witness: the amended statement applied to the freshly
initialised machine and the null-data response. -/
theorem c3_malformed_renders_error_row_witness :
    (mInit.pending.find? (fun p => p.1 == 0)).isSome = true ∧
    renderTableBody mInit.columns respMalformed.data = .error () ∧
    (step optsAll mInit (.resolve 0 respMalformed)).body = .errorRow ∧
    (step optsAll mInit (.resolve 0 respMalformed)).state = mInit.state :=
  ⟨by decide, by decide,
    (c3_malformed_renders_error_row optsAll mInit 0 respMalformed
      (by decide) (by decide)).1,
    (c3_malformed_renders_error_row optsAll mInit 0 respMalformed
      (by decide) (by decide)).2.1⟩

/-- Claim C5 counterexample: with column discovery configured, the fetched
column list starts with a non-sortable column whose first sortable column
has index 1, yet the initial sort column index is 0 — the index was
computed from the (empty) static column list before the discovery call
resolved. -/
theorem c5_counterexample_discovery_sort_index :
    (initMachine optsDisc (.ok discCols)).columns = discCols ∧
    specFirstSortableIndex (initMachine optsDisc (.ok discCols)).columns = 1 ∧
    (initMachine optsDisc (.ok discCols)).state.sort.columnIndex = 0 ∧
    (initMachine optsDisc (.ok discCols)).state.sort.columnIndex ≠
      specFirstSortableIndex (initMachine optsDisc (.ok discCols)).columns := by
  decide

/-- Claim C5 (amended): with statically supplied, non-empty columns the
initial sort column index is the index of the first sortable column in
display order (0 when none is sortable), with ascending direction; with
column discovery configured and no static columns, the index is computed
before the fetched columns arrive, over the empty list, and is therefore
always 0 (ascending), whatever the fetched columns look like. -/
theorem c5_initial_sort_index (opts : Opts) (cols : List Column) :
    (opts.hasColumnsUrl = false → opts.columns ≠ [] →
      (initMachine opts (.error ())).columns = opts.columns ∧
      (initMachine opts (.error ())).state.sort.columnIndex =
        specFirstSortableIndex (initMachine opts (.error ())).columns ∧
      (initMachine opts (.error ())).state.sort.direction = .asc) ∧
    (opts.hasColumnsUrl = true → opts.columns = [] →
      (initMachine opts (.ok cols)).columns = cols ∧
      (initMachine opts (.ok cols)).state.sort.columnIndex = 0 ∧
      (initMachine opts (.ok cols)).state.sort.direction = .asc) := by
  constructor
  · intro hurl hne
    have hlen : 0 < opts.columns.length := List.length_pos.mpr hne
    simp [initMachine, coreTableEach, freshMachine, initializeTable, fetchData,
      hurl, hlen, initialSortIdx_eq]
  · intro hurl hempty
    simp [initMachine, coreTableEach, freshMachine, initializeTable, fetchData,
      hurl, hempty, initialSortIdx, jsFindIndex]

/-- Claim C5 witness: the static half of the amended statement applied to
the all-features configuration. -/
theorem c5_initial_sort_index_witness :
    optsAll.hasColumnsUrl = false ∧ optsAll.columns ≠ [] ∧
    ((initMachine optsAll (.error ())).columns = optsAll.columns ∧
     (initMachine optsAll (.error ())).state.sort.columnIndex =
       specFirstSortableIndex (initMachine optsAll (.error ())).columns ∧
     (initMachine optsAll (.error ())).state.sort.direction = .asc) :=
  ⟨rfl, by decide, (c5_initial_sort_index optsAll []).1 rfl (by decide)⟩

/-- Claim C6: clicking the header of the column that is already the sort
column flips the direction and keeps the column index; clicking a
different sortable header selects it with ascending direction (and either
click issues exactly one new fetch token); a header without the sortable
class never reaches the handler, so the machine is unchanged and no token
is issued. -/
theorem c6_toggle_sort (opts : Opts) (m : Machine) (i : Nat)
    (hw : m.wired = true) (ho : opts.ordering = true) :
    (thSortable m.columns i = true → m.state.sort.columnIndex = (i : Int) →
      (step opts m (.clickSort i)).state.sort.columnIndex = m.state.sort.columnIndex ∧
      (step opts m (.clickSort i)).state.sort.direction = flipDir m.state.sort.direction ∧
      (step opts m (.clickSort i)).nextDraw = m.nextDraw + 1) ∧
    (thSortable m.columns i = true → m.state.sort.columnIndex ≠ (i : Int) →
      (step opts m (.clickSort i)).state.sort.columnIndex = (i : Int) ∧
      (step opts m (.clickSort i)).state.sort.direction = .asc ∧
      (step opts m (.clickSort i)).nextDraw = m.nextDraw + 1) ∧
    (thSortable m.columns i = false →
      step opts m (.clickSort i) = m) := by
  refine ⟨?_, ?_, ?_⟩
  · intro hs heq
    simp [step, hw, ho, hs, heq, fetchData]
  · intro hs hne
    simp [step, hw, ho, hs, fetchData, beq_iff_eq, hne]
  · intro hs
    simp [step, hw, ho, hs]

/-- Claim C6 witness: clicking the active sortable column 0 of the
freshly initialised machine keeps the column and flips the direction. -/
theorem c6_toggle_sort_witness :
    thSortable mInit.columns 0 = true ∧
    mInit.state.sort.columnIndex = ((0 : Nat) : Int) ∧
    (step optsAll mInit (.clickSort 0)).state.sort.columnIndex =
      mInit.state.sort.columnIndex ∧
    (step optsAll mInit (.clickSort 0)).state.sort.direction =
      flipDir mInit.state.sort.direction :=
  ⟨by decide, by decide,
    ((c6_toggle_sort optsAll mInit 0 (by decide) rfl).1 (by decide) (by decide)).1,
    ((c6_toggle_sort optsAll mInit 0 (by decide) rfl).1 (by decide) (by decide)).2.1⟩

/-- Claim C8: a settled search sets the search term, resets the page to
0 and leaves page length and sort untouched; the fetch request it issues
therefore carries offset start = 0 * pageLength = 0 and the new term. -/
theorem c8_set_search_resets_page (opts : Opts) (m : Machine) (term : String)
    (hw : m.wired = true) (hs : opts.searching = true) :
    (step opts m (.searchSettled term)).state.searchTerm = term ∧
    (step opts m (.searchSettled term)).state.currentPage = 0 ∧
    (step opts m (.searchSettled term)).state.pageLength = m.state.pageLength ∧
    (step opts m (.searchSettled term)).state.sort = m.state.sort ∧
    (step opts m (.searchSettled term)).requestsSent = m.requestsSent ++
      [buildRequest m.columns
        { m.state with searchTerm := term, currentPage := 0 } m.nextDraw] ∧
    (buildRequest m.columns
      { m.state with searchTerm := term, currentPage := 0 } m.nextDraw).start = 0 ∧
    (buildRequest m.columns
      { m.state with searchTerm := term, currentPage := 0 } m.nextDraw).searchValue = term := by
  simp [step, hw, hs, fetchData, buildRequest]

/-- Claim C8 witness: the statement applied to the freshly initialised
machine and a concrete term. -/
theorem c8_set_search_resets_page_witness :
    mInit.wired = true ∧ optsAll.searching = true ∧
    (step optsAll mInit (.searchSettled "qq")).state.searchTerm = "qq" ∧
    (step optsAll mInit (.searchSettled "qq")).state.currentPage = 0 ∧
    (buildRequest mInit.columns
      { mInit.state with searchTerm := "qq", currentPage := 0 } mInit.nextDraw).start = 0 :=
  ⟨by decide, rfl,
    (c8_set_search_resets_page optsAll mInit "qq" (by decide) rfl).1,
    (c8_set_search_resets_page optsAll mInit "qq" (by decide) rfl).2.1,
    (c8_set_search_resets_page optsAll mInit "qq" (by decide) rfl).2.2.2.2.2.1⟩

/-- A machine with no wired listeners, no in-flight request, no rendered
paging buttons and the state data attached absorbs every event: each
handler branch of step is unreachable. -/
theorem step_fixes_inert (opts : Opts) (m : Machine) (e : Event)
    (hw : m.wired = false) (hp : m.pending = []) (hb : m.buttons = none)
    (hs : m.hasStateData = true) : step opts m e = m := by
  cases e <;> simp [step, coreTableEach, hw, hp, hb, hs]

/-- Event sequences of any length leave an inert machine unchanged. -/
theorem runEvents_fixes_inert (opts : Opts) (m : Machine) (evs : List Event)
    (hw : m.wired = false) (hp : m.pending = []) (hb : m.buttons = none)
    (hs : m.hasStateData = true) : runEvents opts m evs = m := by
  induction evs with
  | nil => rfl
  | cons e rest ih =>
    show runEvents opts (step opts m e) rest = m
    rw [step_fixes_inert opts m e hw hp hb hs]
    exact ih

/-- Claim C9: when the column-discovery call fails, initialisation stops
in the fatal error state: no listeners are wired, no fetch was issued,
and no sequence of later events (clicks, searches, resolutions, repeated
plugin calls on the same container) can change the machine or issue a
data-fetch request. -/
theorem c9_discovery_failure_terminal (opts : Opts) (evs : List Event)
    (hurl : opts.hasColumnsUrl = true) :
    (initMachine opts (.error ())).fatal = true ∧
    (initMachine opts (.error ())).wired = false ∧
    (initMachine opts (.error ())).requestsSent = [] ∧
    runEvents opts (initMachine opts (.error ())) evs = initMachine opts (.error ()) ∧
    (runEvents opts (initMachine opts (.error ())) evs).requestsSent = [] ∧
    (runEvents opts (initMachine opts (.error ())) evs).wired = false := by
  have hfatal : (initMachine opts (.error ())).fatal = true := by
    simp [initMachine, coreTableEach, freshMachine, initializeTable, hurl]
  have hw : (initMachine opts (.error ())).wired = false := by
    simp [initMachine, coreTableEach, freshMachine, initializeTable, hurl]
  have hp : (initMachine opts (.error ())).pending = [] := by
    simp [initMachine, coreTableEach, freshMachine, initializeTable, hurl]
  have hb : (initMachine opts (.error ())).buttons = none := by
    simp [initMachine, coreTableEach, freshMachine, initializeTable, hurl]
  have hsd : (initMachine opts (.error ())).hasStateData = true := by
    simp [initMachine, coreTableEach, freshMachine, initializeTable, hurl]
  have hreq : (initMachine opts (.error ())).requestsSent = [] := by
    simp [initMachine, coreTableEach, freshMachine, initializeTable, hurl]
  have hrun := runEvents_fixes_inert opts (initMachine opts (.error ())) evs hw hp hb hsd
  exact ⟨hfatal, hw, hreq, hrun, by rw [hrun]; exact hreq, by rw [hrun]; exact hw⟩

/-- Claim C9 witness: the statement applied to the discovery
configuration and a concrete event sequence that tries a search, a sort
click, a paging click and a repeated plugin call. -/
theorem c9_discovery_failure_terminal_witness :
    optsDisc.hasColumnsUrl = true ∧
    (initMachine optsDisc (.error ())).fatal = true ∧
    (runEvents optsDisc (initMachine optsDisc (.error ()))
      [.searchSettled "q", .clickSort 0, .clickNext,
       .reinit (.ok discCols)]).requestsSent = [] :=
  ⟨rfl,
    (c9_discovery_failure_terminal optsDisc
      [.searchSettled "q", .clickSort 0, .clickNext, .reinit (.ok discCols)] rfl).1,
    (c9_discovery_failure_terminal optsDisc
      [.searchSettled "q", .clickSort 0, .clickNext, .reinit (.ok discCols)]
      rfl).2.2.2.2.1⟩

/-- Claim C10: for an accepted array response, every rendered cell is the
row value at the column key when that value is truthy and the empty
string otherwise; in particular a missing key, null, 0, false and the
empty string all render as an empty cell. -/
theorem c10_cell_rendering (cols : List Column) (rows : List Row)
    (hne : rows ≠ []) :
    renderTableBody cols (.arr rows) =
      .ok (.rows (rows.map fun r => cols.map fun c =>
        if truthy (rowLookup r c.data) then rowLookup r c.data else .vStr "")) ∧
    (∀ (r : Row) (key : String),
      truthy (rowLookup r key) = true → cellData r key = rowLookup r key) ∧
    (∀ (r : Row) (key : String),
      truthy (rowLookup r key) = false → cellData r key = .vStr "") ∧
    cellData [("k", .vNull)] "k" = .vStr "" ∧
    cellData [("k", .vNum 0)] "k" = .vStr "" ∧
    cellData [("k", .vFalse)] "k" = .vStr "" ∧
    cellData [("k", .vStr "")] "k" = .vStr "" ∧
    cellData [] "k" = .vStr "" := by
  refine ⟨?_, ?_, ?_, by decide, by decide, by decide, by decide, by decide⟩
  · have hlen : (rows.length == 0) = false := by
      cases rows with
      | nil => exact absurd rfl hne
      | cons a b => rfl
    simp [renderTableBody, hlen, renderCells, cellData, jsOr]
  · intro r key ht
    simp [cellData, jsOr, ht]
  · intro r key ht
    simp [cellData, jsOr, ht]

/-- Claim C10 witness: the statement applied to one column and one row
carrying a truthy value under the column key. -/
theorem c10_cell_rendering_witness :
    ([[(("k" : String), JsVal.vStr "v")]] : List Row) ≠ [] ∧
    renderTableBody [{ data := "k", title := "K", orderable := true }]
      (.arr [[("k", .vStr "v")]]) = .ok (.rows [[.vStr "v"]]) := by
  refine ⟨by decide, ?_⟩
  have h := (c10_cell_rendering [{ data := "k", title := "K", orderable := true }]
    [[("k", .vStr "v")]] (by decide)).1
  exact h

/-- While the gaps between keyups stay below the delay, an armed timer
never fires: each keyup re-arms it, no value is emitted, and at the end
the timer armed by the last keyup is the only one standing. -/
theorem debRun_pending (delay : Nat) (events : List (Nat × String)) :
    ∀ (prev : Nat) (v0 : String), gapsFrom delay prev events = true →
    debRun delay (some (prev + delay, v0)) events =
      (some ((lastPair (prev, v0) events).1 + delay,
        (lastPair (prev, v0) events).2), []) := by
  induction events with
  | nil => intro prev v0 _; rfl
  | cons e rest ih =>
    intro prev v0 hg
    simp only [gapsFrom, Bool.and_eq_true, decide_eq_true_eq] at hg
    obtain ⟨⟨h1, h2⟩, h3⟩ := hg
    have hnot : ¬ (prev + delay ≤ e.1) := by omega
    have hstep : debStep delay (some (prev + delay, v0)) e.1 e.2 =
        (some (e.1 + delay, e.2), []) := by
      unfold debStep
      simp [hnot]
    simp only [debRun, hstep]
    rw [ih e.1 e.2 h3]
    simp [lastPair]

/-- Claim C7: for any non-empty keyup sequence whose consecutive gaps all
stay within the 400 ms debounce window, the debounced callback fires
exactly once after quiescence, with the value of the last keyup; running
the grid over those firings is the same as one settled search with that
value, so (with searching wired) exactly one fetch is issued and its
search parameter is the last value. -/
theorem c7_debounced_search (opts : Opts) (m : Machine) (e : Nat × String)
    (events : List (Nat × String))
    (hg : gapsFrom 400 e.1 events = true) :
    debouncedKeyupFires (e :: events) = [(lastPair e events).2] ∧
    runDebouncedSearch opts m (e :: events) =
      step opts m (.searchSettled (lastPair e events).2) ∧
    (m.wired = true → opts.searching = true →
      (runDebouncedSearch opts m (e :: events)).requestsSent = m.requestsSent ++
        [buildRequest m.columns
          { m.state with searchTerm := (lastPair e events).2, currentPage := 0 }
          m.nextDraw] ∧
      (buildRequest m.columns
        { m.state with searchTerm := (lastPair e events).2, currentPage := 0 }
        m.nextDraw).searchValue = (lastPair e events).2) := by
  have h0 : debStep 400 none e.1 e.2 = (some (e.1 + 400, e.2), []) := rfl
  have hfires : debouncedKeyupFires (e :: events) = [(lastPair e events).2] := by
    unfold debouncedKeyupFires
    simp only [debRun, h0]
    rw [debRun_pending 400 events e.1 e.2 hg]
    simp [debFlush]
  refine ⟨hfires, ?_, ?_⟩
  · unfold runDebouncedSearch
    rw [hfires]
    rfl
  · intro hw hs
    unfold runDebouncedSearch
    rw [hfires]
    constructor
    · show (step opts m (.searchSettled (lastPair e events).2)).requestsSent = _
      simp [step, hw, hs, fetchData]
    · rfl

/-- Claim C7 witness: three keyups at times 0, 100 and 250 (all gaps
below 400) produce exactly one firing with the last value, and running
the grid over the firings equals the single settled search. -/
theorem c7_debounced_search_witness :
    gapsFrom 400 0 [(100, "ab"), (250, "abc")] = true ∧
    debouncedKeyupFires [(0, "a"), (100, "ab"), (250, "abc")] = ["abc"] ∧
    runDebouncedSearch optsAll mInit [(0, "a"), (100, "ab"), (250, "abc")] =
      step optsAll mInit (.searchSettled "abc") :=
  ⟨by decide,
    (c7_debounced_search optsAll mInit (0, "a") [(100, "ab"), (250, "abc")]
      (by decide)).1,
    (c7_debounced_search optsAll mInit (0, "a") [(100, "ab"), (250, "abc")]
      (by decide)).2.1⟩

end CoreTables


